import Mathlib

/-!
Verification of the mixin aggregator module
`src/web/server/vue-cli/src/mixins/index.js` of the codechecker repository.

The module is an ES-module barrel file: it imports the default export of
four mixin modules and re-exports them under their original names.  We
embed the relevant fragment of ES-module semantics shallowly: a module
record carries an optional default export and an association list of named
exports; a module environment maps specifiers to loaded module records;
loading the aggregator resolves each of its four imports to the default
export of the referenced module and builds the export table, failing
(returning `none`) as soon as any import cannot be resolved.
-/

namespace CodeChecker

/-- A loaded ES module: its optional default export and its named exports,
as an association list from export name to exported value. -/
structure ModuleRecord (α : Type) where
  defaultExport : Option α
  namedExports : List (String × α)
deriving DecidableEq, Repr

/-- The import declarations of `mixins/index.js`, in source order:
local binding name paired with the module specifier it is imported from
(each import takes the default export of its module). -/
def aggregatorImports : List (String × String) :=
  [("DetectionStatusMixin", "./detection-status.mixin"),
   ("BugPathLengthColorMixin", "./bug-path-length-color.mixin"),
   ("SeverityMixin", "./severity.mixin"),
   ("StrToColorMixin", "./str-to-color.mixin")]

/-- The names listed in the `export` block of `mixins/index.js`,
in source order. -/
def aggregatorExportNames : List String :=
  ["BugPathLengthColorMixin", "DetectionStatusMixin", "SeverityMixin", "StrToColorMixin"]

/-- Resolve a list of default-imports against a module environment:
each import binds its local name to the default export of the referenced
module; resolution of the whole list fails if any single import fails. -/
def resolveImports (env : String → Option (ModuleRecord α)) :
    List (String × String) → Option (List (String × α))
  | [] => some []
  | (lname, spec) :: rest =>
    match (env spec).bind ModuleRecord.defaultExport with
    | none => none
    | some v =>
      match resolveImports env rest with
      | none => none
      | some bs => some ((lname, v) :: bs)

/-- Build the export table from the local bindings and the list of names in
the `export` block: each exported name is bound, under that same name, to
the local binding of the same name. -/
def resolveExports (bs : List (String × α)) : List String → Option (List (String × α))
  | [] => some []
  | n :: rest =>
    match bs.lookup n with
    | none => none
    | some v =>
      match resolveExports bs rest with
      | none => none
      | some tbl => some ((n, v) :: tbl)

/-- Load the aggregator module `mixins/index.js` in a module environment:
resolve its four imports, then build its export table.  The module has no
`export default`, so the resulting record's default export is `none`. -/
def loadAggregator (env : String → Option (ModuleRecord α)) : Option (ModuleRecord α) :=
  match resolveImports env aggregatorImports with
  | none => none
  | some bs =>
    match resolveExports bs aggregatorExportNames with
    | none => none
    | some tbl => some ⟨none, tbl⟩

/-- Process state for the module system: the (immutable) environment of
loadable modules, and the per-process cache slot for the aggregator module
(ES modules are instantiated once per process and cached). -/
structure ProcState (α : Type) where
  env : String → Option (ModuleRecord α)
  cache : Option (ModuleRecord α)

/-- Import the aggregator in a process: if it is already in the module
cache, return the cached instance; otherwise load it and cache the result. -/
def importAgg (s : ProcState α) : ProcState α × Option (ModuleRecord α) :=
  match s.cache with
  | some m => (s, some m)
  | none =>
    match loadAggregator s.env with
    | none => (s, none)
    | some m => (⟨s.env, some m⟩, some m)

/-- Import the aggregator `k + 1` times in sequence, returning the state and
the result of the last import. -/
def importIter (s : ProcState α) : Nat → ProcState α × Option (ModuleRecord α)
  | 0 => importAgg s
  | k + 1 => importAgg (importIter s k).1

/-- Read one named export of the (cached) aggregator module: a pure lookup
in the export table, returning the new process state and the value read. -/
def readAgg (s : ProcState α) (n : String) : ProcState α × Option α :=
  (s, s.cache.bind (fun m => m.namedExports.lookup n))

/-- Perform a sequence of reads of named exports, threading the process
state through. -/
def readSeq (s : ProcState α) : List String → ProcState α
  | [] => s
  | n :: ns => readSeq (readAgg s n).1 ns

/-- The verbatim lines of `src/web/server/vue-cli/src/mixins/index.js`. -/
def indexJsLines : List String :=
  ["import DetectionStatusMixin from \x27./detection-status.mixin\x27;",
   "import BugPathLengthColorMixin from \x27./bug-path-length-color.mixin\x27;",
   "import SeverityMixin from \x27./severity.mixin\x27;",
   "import StrToColorMixin from \x27./str-to-color.mixin\x27;",
   "",
   "export \x7b",
   "  BugPathLengthColorMixin,",
   "  DetectionStatusMixin,",
   "  SeverityMixin,",
   "  StrToColorMixin",
   "\x7d"]

/-- Render one default-import declaration as a source line. -/
def importLine (p : String × String) : String :=
  "import " ++ p.1 ++ " from \x27" ++ p.2 ++ "\x27;"

/-- Render the body of an `export` block: each name indented, all but the
last followed by a comma. -/
def indentedNames : List String → List String
  | [] => []
  | [n] => ["  " ++ n]
  | n :: rest => ("  " ++ n ++ ",") :: indentedNames rest

/-- A concrete module environment providing all four mixin modules, used to
exercise the theorems at concrete inputs. -/
def sampleEnv : String → Option (ModuleRecord Nat) := fun spec =>
  if spec = "./detection-status.mixin" then some ⟨some 1, []⟩
  else if spec = "./bug-path-length-color.mixin" then some ⟨some 2, []⟩
  else if spec = "./severity.mixin" then some ⟨some 3, []⟩
  else if spec = "./str-to-color.mixin" then some ⟨some 4, []⟩
  else none

/-- A concrete module environment in which the severity mixin module is
missing, used to exercise the load-failure theorems. -/
def badEnv : String → Option (ModuleRecord Nat) := fun spec =>
  if spec = "./detection-status.mixin" then some ⟨some 1, []⟩
  else if spec = "./bug-path-length-color.mixin" then some ⟨some 2, []⟩
  else if spec = "./str-to-color.mixin" then some ⟨some 4, []⟩
  else none

/-- Lookup in an association list succeeds exactly when the key occurs among
the keys of the list. -/
theorem lookup_isSome_iff (l : List (String × α)) (n : String) :
    (l.lookup n).isSome ↔ n ∈ l.map Prod.fst := by
  induction l with
  | nil => simp [List.lookup]
  | cons p rest ih =>
    obtain ⟨k, v⟩ := p
    by_cases h : n = k
    · subst h; simp [List.lookup]
    · have hbf : (n == k) = false := beq_eq_false_iff_ne.mpr h
      simp only [List.lookup, hbf, List.map_cons, List.mem_cons]
      simp [ih, h]

/-- A successfully built export table has exactly the requested names as
keys, in order. -/
theorem resolveExports_keys (bs : List (String × α)) (ns : List String)
    (tbl : List (String × α)) (h : resolveExports bs ns = some tbl) :
    tbl.map Prod.fst = ns := by
  induction ns generalizing tbl with
  | nil => simp [resolveExports] at h; simp [← h]
  | cons n rest ih =>
    rw [resolveExports] at h
    cases hl : bs.lookup n with
    | none => rw [hl] at h; exact absurd h (by simp)
    | some v =>
      rw [hl] at h
      cases hr : resolveExports bs rest with
      | none => rw [hr] at h; exact absurd h (by simp)
      | some tbl0 =>
        rw [hr] at h
        cases h
        simpa using ih tbl0 hr

/-- If any single import in the list fails to resolve, then resolving the
whole import list fails. -/
theorem resolveImports_none_of_missing (env : String → Option (ModuleRecord α))
    (l : List (String × String)) (p : String × String) (hp : p ∈ l)
    (hfail : (env p.2).bind ModuleRecord.defaultExport = none) :
    resolveImports env l = none := by
  induction l with
  | nil => cases hp
  | cons q rest ih =>
    rw [resolveImports]
    rcases List.mem_cons.mp hp with h | h
    · subst h; rw [hfail]
    · cases hq : (env q.2).bind ModuleRecord.defaultExport with
      | none => rfl
      | some v => rw [ih h]

/-- If the whole import list resolves, every single import in it resolves. -/
theorem resolveImports_all_some (env : String → Option (ModuleRecord α))
    (l : List (String × String)) (bs : List (String × α))
    (h : resolveImports env l = some bs) :
    ∀ p ∈ l, ∃ v, (env p.2).bind ModuleRecord.defaultExport = some v := by
  induction l generalizing bs with
  | nil => intro p hp; cases hp
  | cons q rest ih =>
    intro p hp
    rw [resolveImports] at h
    cases hq : (env q.2).bind ModuleRecord.defaultExport with
    | none => rw [hq] at h; exact absurd h (by simp)
    | some v =>
      rw [hq] at h
      cases hr : resolveImports env rest with
      | none => rw [hr] at h; exact absurd h (by simp)
      | some bs0 =>
        rcases List.mem_cons.mp hp with hpe | hpe
        · exact ⟨v, hpe ▸ hq⟩
        · exact ih bs0 hr p hpe

/-- Computation of the aggregator's load result when all four imports
resolve: the export table binds the four names, in export order, to the
default exports of their modules, and the aggregator itself has no default
export. -/
theorem loadAggregator_eq (env : String → Option (ModuleRecord α)) (vd vb vs vc : α)
    (hd : (env "./detection-status.mixin").bind ModuleRecord.defaultExport = some vd)
    (hb : (env "./bug-path-length-color.mixin").bind ModuleRecord.defaultExport = some vb)
    (hs : (env "./severity.mixin").bind ModuleRecord.defaultExport = some vs)
    (hc : (env "./str-to-color.mixin").bind ModuleRecord.defaultExport = some vc) :
    loadAggregator env = some ⟨none,
      [("BugPathLengthColorMixin", vb), ("DetectionStatusMixin", vd),
       ("SeverityMixin", vs), ("StrToColorMixin", vc)]⟩ := by
  simp [loadAggregator, aggregatorImports, aggregatorExportNames,
        resolveImports, resolveExports, hd, hb, hs, hc, List.lookup]

/-- One successful import of the aggregator reaches a fixpoint of the
module cache: importing again changes nothing and returns the same result. -/
theorem importAgg_idem (s : ProcState α) : importAgg (importAgg s).1 = importAgg s := by
  cases hc : s.cache with
  | some m => simp [importAgg, hc]
  | none =>
    cases hl : loadAggregator s.env with
    | none => simp [importAgg, hc, hl]
    | some m => simp [importAgg, hc, hl]

/-- Every iterated import of the aggregator equals the first import. -/
theorem importIter_eq (s : ProcState α) (k : Nat) : importIter s k = importAgg s := by
  induction k with
  | zero => rfl
  | succ k ih => rw [importIter, ih, importAgg_idem]

/-- Inversion of a successful aggregator load: the module has no default
export and the keys of its export table are exactly the names of the
`export` block, in order. -/
theorem loadAggregator_inv (env : String → Option (ModuleRecord α))
    (m : ModuleRecord α) (h : loadAggregator env = some m) :
    m.defaultExport = none ∧ m.namedExports.map Prod.fst = aggregatorExportNames := by
  rw [loadAggregator] at h
  cases hi : resolveImports env aggregatorImports with
  | none => rw [hi] at h; exact absurd h (by simp)
  | some bs =>
    simp only [hi] at h
    cases he : resolveExports bs aggregatorExportNames with
    | none => simp only [he] at h; exact absurd h (by simp)
    | some tbl =>
      simp only [he] at h
      cases h
      exact ⟨rfl, resolveExports_keys bs aggregatorExportNames tbl he⟩

/-- C1: when the four underlying mixin modules are present, importing the
aggregator and accessing each of the four identifiers yields exactly the
value obtained by importing the corresponding underlying module directly;
the aggregator is an identity pass-through with no wrapping or cloning. -/
theorem aggregator_identity_passthrough (env : String → Option (ModuleRecord α))
    (vd vb vs vc : α)
    (hd : (env "./detection-status.mixin").bind ModuleRecord.defaultExport = some vd)
    (hb : (env "./bug-path-length-color.mixin").bind ModuleRecord.defaultExport = some vb)
    (hs : (env "./severity.mixin").bind ModuleRecord.defaultExport = some vs)
    (hc : (env "./str-to-color.mixin").bind ModuleRecord.defaultExport = some vc) :
    ∃ m, loadAggregator env = some m ∧
      m.namedExports.lookup "DetectionStatusMixin"
        = (env "./detection-status.mixin").bind ModuleRecord.defaultExport ∧
      m.namedExports.lookup "BugPathLengthColorMixin"
        = (env "./bug-path-length-color.mixin").bind ModuleRecord.defaultExport ∧
      m.namedExports.lookup "SeverityMixin"
        = (env "./severity.mixin").bind ModuleRecord.defaultExport ∧
      m.namedExports.lookup "StrToColorMixin"
        = (env "./str-to-color.mixin").bind ModuleRecord.defaultExport := by
  refine ⟨_, loadAggregator_eq env vd vb vs vc hd hb hs hc, ?_, ?_, ?_, ?_⟩ <;>
    simp [List.lookup, hd, hb, hs, hc]

/-- C1 witness: the identity pass-through at a concrete environment. -/
theorem aggregator_identity_passthrough_witness :
    ∃ m, loadAggregator sampleEnv = some m ∧
      m.namedExports.lookup "DetectionStatusMixin"
        = (sampleEnv "./detection-status.mixin").bind ModuleRecord.defaultExport ∧
      m.namedExports.lookup "BugPathLengthColorMixin"
        = (sampleEnv "./bug-path-length-color.mixin").bind ModuleRecord.defaultExport ∧
      m.namedExports.lookup "SeverityMixin"
        = (sampleEnv "./severity.mixin").bind ModuleRecord.defaultExport ∧
      m.namedExports.lookup "StrToColorMixin"
        = (sampleEnv "./str-to-color.mixin").bind ModuleRecord.defaultExport :=
  aggregator_identity_passthrough sampleEnv 1 2 3 4 rfl rfl rfl rfl

/-- C2: the export table of a successfully loaded aggregator contains
exactly the four names BugPathLengthColorMixin, DetectionStatusMixin,
SeverityMixin, StrToColorMixin and no other exported names. -/
theorem aggregator_exports_exactly_four (env : String → Option (ModuleRecord α))
    (m : ModuleRecord α) (h : loadAggregator env = some m) :
    m.namedExports.map Prod.fst =
      ["BugPathLengthColorMixin", "DetectionStatusMixin",
       "SeverityMixin", "StrToColorMixin"] :=
  (loadAggregator_inv env m h).2

/-- C2 witness: the export table keys at a concrete environment. -/
theorem aggregator_exports_exactly_four_witness :
    (ModuleRecord.mk none
      [("BugPathLengthColorMixin", (2 : Nat)), ("DetectionStatusMixin", 1),
       ("SeverityMixin", 3), ("StrToColorMixin", 4)]).namedExports.map Prod.fst =
      ["BugPathLengthColorMixin", "DetectionStatusMixin",
       "SeverityMixin", "StrToColorMixin"] :=
  aggregator_exports_exactly_four sampleEnv _ rfl

/-- C3: each exported name is bound, under its original name and exactly
once, to the default export of exactly one of the four underlying mixin
modules; no renaming, transformation or merging occurs. -/
theorem aggregator_no_renaming (env : String → Option (ModuleRecord α))
    (vd vb vs vc : α)
    (hd : (env "./detection-status.mixin").bind ModuleRecord.defaultExport = some vd)
    (hb : (env "./bug-path-length-color.mixin").bind ModuleRecord.defaultExport = some vb)
    (hs : (env "./severity.mixin").bind ModuleRecord.defaultExport = some vs)
    (hc : (env "./str-to-color.mixin").bind ModuleRecord.defaultExport = some vc) :
    loadAggregator env = some ⟨none,
      [("BugPathLengthColorMixin", vb), ("DetectionStatusMixin", vd),
       ("SeverityMixin", vs), ("StrToColorMixin", vc)]⟩ :=
  loadAggregator_eq env vd vb vs vc hd hb hs hc

/-- C3 witness: the exact export table at a concrete environment. -/
theorem aggregator_no_renaming_witness :
    loadAggregator sampleEnv = some ⟨none,
      [("BugPathLengthColorMixin", 2), ("DetectionStatusMixin", 1),
       ("SeverityMixin", 3), ("StrToColorMixin", 4)]⟩ :=
  aggregator_no_renaming sampleEnv 1 2 3 4 rfl rfl rfl rfl

/-- C4: if any one of the four underlying mixin modules cannot be resolved
at load time, the aggregator fails to load; and whenever it does load, all
four imports resolved — it never produces a partial export set. -/
theorem aggregator_all_or_nothing (env : String → Option (ModuleRecord α)) :
    (∀ p ∈ aggregatorImports,
        (env p.2).bind ModuleRecord.defaultExport = none → loadAggregator env = none) ∧
    (∀ m, loadAggregator env = some m →
        ∀ p ∈ aggregatorImports, ∃ v, (env p.2).bind ModuleRecord.defaultExport = some v) := by
  constructor
  · intro p hp hfail
    rw [loadAggregator, resolveImports_none_of_missing env aggregatorImports p hp hfail]
  · intro m h p hp
    rw [loadAggregator] at h
    cases hi : resolveImports env aggregatorImports with
    | none => rw [hi] at h; exact absurd h (by simp)
    | some bs => exact resolveImports_all_some env aggregatorImports bs hi p hp

/-- C4 witness: with the severity mixin module missing, the aggregator
fails to load. -/
theorem aggregator_all_or_nothing_witness : loadAggregator badEnv = none :=
  (aggregator_all_or_nothing badEnv).1 ("SeverityMixin", "./severity.mixin")
    (by simp [aggregatorImports]) rfl

/-- C5: resolving a name through a successfully loaded aggregator succeeds
if and only if the name is one of the four enumerated identifiers; any
other name yields a resolution failure. -/
theorem aggregator_resolution_iff_member (env : String → Option (ModuleRecord α))
    (m : ModuleRecord α) (n : String) (h : loadAggregator env = some m) :
    (m.namedExports.lookup n).isSome ↔
      n ∈ ["BugPathLengthColorMixin", "DetectionStatusMixin",
           "SeverityMixin", "StrToColorMixin"] := by
  rw [lookup_isSome_iff, (loadAggregator_inv env m h).2]
  exact Iff.rfl

/-- C5 witness: a name outside the four-member set fails to resolve at a
concrete environment. -/
theorem aggregator_resolution_iff_member_witness :
    ((ModuleRecord.mk none
      [("BugPathLengthColorMixin", (2 : Nat)), ("DetectionStatusMixin", 1),
       ("SeverityMixin", 3), ("StrToColorMixin", 4)]).namedExports.lookup
        "NoSuchMixin").isSome ↔
      "NoSuchMixin" ∈ ["BugPathLengthColorMixin", "DetectionStatusMixin",
           "SeverityMixin", "StrToColorMixin"] :=
  aggregator_resolution_iff_member sampleEnv _ "NoSuchMixin" rfl

/-- C6: importing the aggregator any number of times within the same
process yields the same result as the first import: every pair of imports
resolves to the same underlying module instance. -/
theorem aggregator_import_idempotent (s : ProcState α) (k j : Nat) :
    (importIter s k).2 = (importIter s j).2 := by
  rw [importIter_eq, importIter_eq]

/-- C7: the export table is never mutated after load: any sequence of reads
leaves the process state unchanged, so the mapping seen by a later read is
the one built at load time. -/
theorem aggregator_table_immutable (s : ProcState α) (ns : List String) :
    readSeq s ns = s ∧ ∀ n, (readAgg (readSeq s ns) n).2 = (readAgg s n).2 := by
  have h : readSeq s ns = s := by
    induction ns with
    | nil => rfl
    | cons n rest ih => exact ih
  exact ⟨h, fun n => by rw [h]⟩

/-- C8: loading the aggregator does not alter the module environment, and
resolving a name changes no state at all: the module is free of side
effects beyond binding its four imports. -/
theorem aggregator_load_no_side_effects (s : ProcState α) :
    (importAgg s).1.env = s.env ∧ ∀ n, (readAgg s n).1 = s := by
  refine ⟨?_, fun n => rfl⟩
  cases hc : s.cache with
  | some m => simp [importAgg, hc]
  | none =>
    cases hl : loadAggregator s.env with
    | none => simp [importAgg, hc, hl]
    | some m => simp [importAgg, hc, hl]

/-- C9 counterexample: the module source does not consist of 12 lines. -/
theorem index_js_not_twelve_lines : ¬ indexJsLines.length = 12 := by decide

/-- C9 (amended): the repository fragment is a single 11-line module whose
only behavior is to import the four mixin definitions and re-export them as
a named group: its lines are exactly the four import declarations, a blank
line, and the export block listing the four names. -/
theorem index_js_eleven_line_barrel :
    indexJsLines.length = 11 ∧
    indexJsLines = aggregatorImports.map importLine ++ [""] ++
      ("export \x7b" :: (indentedNames aggregatorExportNames ++ ["\x7d"])) := by
  exact ⟨rfl, by decide⟩

/-- C10: the aggregator module has no default export; only the four named
exports are available to consumers. -/
theorem aggregator_no_default_export (env : String → Option (ModuleRecord α))
    (m : ModuleRecord α) (h : loadAggregator env = some m) :
    m.defaultExport = none :=
  (loadAggregator_inv env m h).1

/-- C10 witness: no default export at a concrete environment. -/
theorem aggregator_no_default_export_witness :
    (ModuleRecord.mk none
      [("BugPathLengthColorMixin", (2 : Nat)), ("DetectionStatusMixin", 1),
       ("SeverityMixin", 3), ("StrToColorMixin", 4)]).defaultExport = none :=
  aggregator_no_default_export sampleEnv _ rfl

end CodeChecker
